import Mathlib

/-!
Shallow embedding of the scrape-then-enrich job-search pipeline
(`job_search.py` and `job_search_AI.py`).

The HTTP transport (requests), the HTML parser (BeautifulSoup) and the
language-model runtime (ollama) are external capabilities; they are modelled
as oracle functions passed to the embedded code, exactly at the boundaries
where the Python code calls them.  The JSON files on disk are modelled by
explicit file-state values threaded through the functions, mirroring the
read/rewrite sequence of the source.
-/

namespace JobSearch

/-- One scraped posting, the dict built at `job_search.py` lines 80-89.
Seven of the eight values are always Python strings; `organisation_url`
is the raw result of `tag.get("href")` when the organisation tag exists,
which is `None` (modelled as `none`) when the tag lacks an `href`
attribute, and the string `"Unknown"` when the tag itself is absent. -/
structure JobRecord where
  title : String
  organisation_name : String
  organisation_url : Option String
  description : String
  criteria : String
  url : String
  posted_time : String
  applicants : String
deriving DecidableEq

/-- State of the persisted scraped-jobs file `./offers/Jobs_.txt`:
the file may be absent (`os.path.exists` false), present but not parseable
as JSON (`json.JSONDecodeError`, carrying the raw text), or a parsed list
of job records. -/
inductive StoredFile where
  | absent : StoredFile
  | corrupt (raw : String) : StoredFile
  | parsed (records : List JobRecord) : StoredFile
deriving DecidableEq

/-- Loading the store, `job_search.py` lines 19-27: a missing file or a
JSON decode error both yield the empty list; otherwise the parsed list. -/
def loadJobs : StoredFile → List JobRecord
  | .absent => []
  | .corrupt _ => []
  | .parsed records => records

/-- Saving the store, `job_search.py` lines 91-93: `json.dump` rewrites the
whole file with the current list. -/
def saveJobs (records : List JobRecord) : StoredFile :=
  .parsed records

/-- The organisation link element `a.topcard__org-name-link`: its text and
its optional `href` attribute (`tag.get("href")` returns `None` when the
attribute is missing). -/
structure OrgTag where
  text : String
  href : Option String
deriving DecidableEq

/-- The structural elements the detail scraper looks up in a fetched job
page (`job_soup.find(...)` calls, `job_search.py` lines 64-78).  Each field
is `none` when `find` returns no element, otherwise the element's text
(for `organisationTag`, the element with text and `href` attribute). -/
structure DetailPage where
  titleTag : Option String
  descriptionTag : Option String
  criteriaTag : Option String
  organisationTag : Option OrgTag
  postedTimeTag : Option String
  figcaptionApplicantsTag : Option String
  spanApplicantsTag : Option String
deriving DecidableEq

/-- Python `str.strip()` with no argument: remove leading and trailing
whitespace.  (Implemented over the character list so it is fully
executable; `Char.isWhitespace` covers the blank, tab, newline and
carriage-return characters that occur in practice.) -/
def pyStrip (s : String) : String :=
  ((s.data.dropWhile Char.isWhitespace).reverse.dropWhile
    Char.isWhitespace).reverse.asString

/-- Python `str.split(sep)` for a one-character separator, over the
character list: splits at every occurrence of the separator, keeping
empty segments; the empty string yields `[[]]`, as in Python. -/
def pySplitChars (sep : Char) : List Char → List (List Char)
  | [] => [[]]
  | c :: rest =>
    match pySplitChars sep rest with
    | [] => [[c]]
    | g :: gs => if c = sep then [] :: g :: gs else (c :: g) :: gs

/-- Python `str.split(sep)` returning strings. -/
def pySplit (s : String) (sep : Char) : List String :=
  (pySplitChars sep s.data).map List.asString

/-- `safe_text` from `job_search.py` lines 61-62:
`tag.text.strip() if tag else "Unknown"`. -/
def safe_text : Option String → String
  | some t => pyStrip t
  | none => "Unknown"

/-- The detail-endpoint URL built at `job_search.py` line 54. -/
def jobPostingUrl (job_id : String) : String :=
  "https://www.linkedin.com/jobs-guest/jobs/api/jobPosting/" ++ job_id

/-- The record constructed from one successfully fetched detail page,
`job_search.py` lines 61-89.  `applicants` first tries the `figcaption`
shape, then the `span` shape (the `or` at lines 74-77). -/
def buildJobRecord (page : DetailPage) (job_url : String) : JobRecord :=
  { title := safe_text page.titleTag
    organisation_name := safe_text (page.organisationTag.map OrgTag.text)
    organisation_url :=
      match page.organisationTag with
      | some tag => tag.href
      | none => some "Unknown"
    description := safe_text page.descriptionTag
    criteria := safe_text page.criteriaTag
    url := job_url
    posted_time := safe_text page.postedTimeTag
    applicants :=
      safe_text (page.figcaptionApplicantsTag.orElse fun _ =>
        page.spanApplicantsTag) }

/-- A response of the listing search endpoint: HTTP status and the parsed
`<li>` items, each carrying the `data-entity-urn` attribute of its
`div.base-card` when that div is present (`none` when the item has no
base-card div, in which case the source skips it, lines 46-49). -/
structure ListingResponse where
  status : Nat
  items : List (Option String)
deriving DecidableEq

/-- Identifier extraction, `job_search.py` lines 45-51: items without a
base-card div are skipped; for the rest the job id is the last `:`
separated segment of the urn (`.split(":")[-1]`; Python `split` always
returns a non-empty list, so `[-1]` is its last element). -/
def extractIds (items : List (Option String)) : List String :=
  items.filterMap fun card => card.map fun urn => (pySplit urn ':').getLastD ""

/-- Scraping one query at one offset, `job_search.py` lines 29-89.
`listing` is the transport oracle for the search endpoint keyed by
(query, location, start offset); `detail` is the transport oracle for the
detail endpoint keyed by URL, `none` meaning a non-200 detail response
(skipped, lines 56-57).  A non-200 listing response contributes nothing
(lines 38-40). -/
def scrapeQuery (listing : String → String → Nat → ListingResponse)
    (detail : String → Option DetailPage)
    (query location : String) (start_index : Nat) : List JobRecord :=
  let response := listing query location start_index
  if response.status ≠ 200 then []
  else
    (extractIds response.items).filterMap fun job_id =>
      (detail (jobPostingUrl job_id)).map fun page =>
        buildJobRecord page (jobPostingUrl job_id)

/-- `scrape_linkedin_jobs`, `job_search.py` lines 7-95: load the existing
store, extend it query by query with the newly fetched records, save the
full list, return it. -/
def scrape_linkedin_jobs (listing : String → String → Nat → ListingResponse)
    (detail : String → Option DetailPage)
    (queries : List String) (location : String) (start_index : Nat)
    (file : StoredFile) : List JobRecord × StoredFile :=
  let job_info_lists := queries.foldl
    (fun acc query => acc ++ scrapeQuery listing detail query location start_index)
    (loadJobs file)
  (job_info_lists, saveJobs job_info_lists)

/-- `MAX_SCRAPE`, `job_search_AI.py` line 8. -/
def MAX_SCRAPE : Nat := 125

/-- Python `range(start, stop, step)` for a positive step. -/
def pyRange (start stop step : Nat) : List Nat :=
  (List.range ((stop - start + step - 1) / step)).map fun k => start + k * step

/-- `get_job_offers`, `job_search_AI.py` lines 116-118: run the scraper on
the full query list at each offset of `range(0, MAX_SCRAPE, 25)`, the
store file carrying the accumulated records between iterations (the
Python return value is discarded; persistence happens via the file). -/
def get_job_offers (listing : String → String → Nat → ListingResponse)
    (detail : String → Option DetailPage)
    (queries : List String) (location : String)
    (file : StoredFile) : StoredFile :=
  (pyRange 0 MAX_SCRAPE 25).foldl
    (fun fs i => (scrape_linkedin_jobs listing detail queries location i fs).2)
    file

/-- `QueryOutput`, `job_search_AI.py` lines 54-56: the schema of the
query-planning model call. -/
structure QueryOutput where
  location : String
  queries : List String
deriving DecidableEq

/-- `RelevanceResult`, `job_search_AI.py` lines 59-62.  The `confidence`
field is declared as a bare `float` (modelled by `ℚ`): the pydantic model
carries no range constraint. -/
structure RelevanceResult where
  relevant : Bool
  explanation : String
  confidence : ℚ
deriving DecidableEq

/-- `JobSummary`, `job_search_AI.py` lines 65-67. -/
structure JobSummary where
  key_requirements : List String
  role_details : List String
deriving DecidableEq

/-- The error raised by pydantic `model_validate_json` when the model
output does not conform to the declared schema (a `ValidationError`,
uncaught everywhere in the source). -/
inductive ModelError where
  | validationError : ModelError
deriving DecidableEq

/-- JSON values, as parsed from the model's text output.  Numbers are
modelled by `ℚ`. -/
inductive Json where
  | null : Json
  | bool (b : Bool) : Json
  | num (q : ℚ) : Json
  | str (s : String) : Json
  | arr (elems : List Json) : Json
  | obj (fields : List (String × Json)) : Json

/-- ASCII lowercasing, Python `str.lower()` on the spellings involved. -/
def pyLower (s : String) : String :=
  (s.data.map Char.toLower).asString

/-- Numeric value of a digit list, most significant digit first. -/
def digitsVal (ds : List Char) : Nat :=
  ds.foldl (fun acc c => acc * 10 + (c.toNat - Char.toNat '0')) 0

/-- `sign * mantissa * 10 ^ shift` as a rational. -/
def ratOfParts (sign : Int) (mantissa : Nat) (shift : Int) : ℚ :=
  if 0 ≤ shift then
    ((sign * mantissa * (10 : Int) ^ shift.toNat : Int) : ℚ)
  else
    ((sign * mantissa : Int) : ℚ) / (((10 : Int) ^ (-shift).toNat : Int) : ℚ)

/-- Exponent suffix of a decimal numeric string: empty, or `e`/`E`
followed by an optional sign and at least one digit. -/
def parseExponent : List Char → Option Int
  | [] => some 0
  | c :: rest =>
    if c = 'e' ∨ c = 'E' then
      match rest with
      | '-' :: ds =>
        if ds ≠ [] ∧ ds.all Char.isDigit then some (-(digitsVal ds : Int))
        else none
      | '+' :: ds =>
        if ds ≠ [] ∧ ds.all Char.isDigit then some (digitsVal ds : Int)
        else none
      | ds =>
        if ds ≠ [] ∧ ds.all Char.isDigit then some (digitsVal ds : Int)
        else none
    else none

/-- Parse a decimal numeric string — optional sign, digits with an
optional decimal point (at least one digit overall), optional exponent —
the finite-number form accepted by pydantic's lax string-to-float
coercion; `none` on anything else.  Non-finite spellings (`inf`, `nan`)
are outside the rational model of floats. -/
def parseDecimal (s : String) : Option ℚ :=
  let (sign, cs) : Int × List Char :=
    match s.data with
    | '-' :: rest => (-1, rest)
    | '+' :: rest => (1, rest)
    | cs => (1, cs)
  let intDigits := cs.takeWhile Char.isDigit
  let afterInt := cs.dropWhile Char.isDigit
  let (fracDigits, afterFrac) : List Char × List Char :=
    match afterInt with
    | '.' :: rest => (rest.takeWhile Char.isDigit, rest.dropWhile Char.isDigit)
    | _ => ([], afterInt)
  if intDigits = [] ∧ fracDigits = [] then none
  else
    match parseExponent afterFrac with
    | none => none
    | some e =>
      some (ratOfParts sign (digitsVal (intDigits ++ fracDigits))
        (e - fracDigits.length))

/-- Pydantic v2 default (lax) coercion of a JSON value to a `bool`
field: booleans pass through; the numbers 0 and 1 and the usual boolean
string spellings (case-insensitive) are coerced; everything else fails
validation. -/
def laxBool : Json → Option Bool
  | .bool b => some b
  | .num q => if q = 0 then some false else if q = 1 then some true else none
  | .str s =>
    let l := pyLower s
    if l = "true" ∨ l = "t" ∨ l = "yes" ∨ l = "y" ∨ l = "on" ∨ l = "1" then
      some true
    else if l = "false" ∨ l = "f" ∨ l = "no" ∨ l = "n" ∨ l = "off" ∨
        l = "0" then
      some false
    else none
  | _ => none

/-- Pydantic v2 default (lax) coercion of a JSON value to a `str` field:
only strings are accepted; numbers and booleans are not stringified. -/
def laxStr : Json → Option String
  | .str s => some s
  | _ => none

/-- Pydantic v2 default (lax) coercion of a JSON value to a `float`
field (modelled by `ℚ`): numbers pass through unchanged, booleans become
0 or 1, numeric strings are parsed; everything else fails validation. -/
def laxFloat : Json → Option ℚ
  | .num q => some q
  | .bool b => some (if b then 1 else 0)
  | .str s => parseDecimal s
  | _ => none

/-- `RelevanceResult.model_validate_json` (`job_search_AI.py` line 159),
pydantic v2 in its default lax mode: the output must be a JSON object
whose `relevant`, `explanation` and `confidence` fields are present and
lax-coercible to `bool`, `str` and `float` respectively; anything else
raises a `ValidationError`.  No constraint beyond the field types is
checked — in particular no range check on `confidence`. -/
def RelevanceResult.model_validate_json (j : Json) :
    Except ModelError RelevanceResult :=
  match j with
  | .obj fields =>
    match (fields.lookup "relevant").bind laxBool,
        (fields.lookup "explanation").bind laxStr,
        (fields.lookup "confidence").bind laxFloat with
    | some b, some e, some c => .ok ⟨b, e, c⟩
    | _, _, _ => .error .validationError
  | _ => .error .validationError

/-- The conformance predicate the `RelevanceResult` schema expresses
under lax validation: the JSON value is an object whose three declared
fields are present and lax-coerce to the verdict's field values. -/
def relevanceConforms (j : Json) (r : RelevanceResult) : Prop :=
  ∃ fields, j = .obj fields ∧
    (fields.lookup "relevant").bind laxBool = some r.relevant ∧
    (fields.lookup "explanation").bind laxStr = some r.explanation ∧
    (fields.lookup "confidence").bind laxFloat = some r.confidence

/-- One enriched entry of `./offers/Jobs_relevant_.json`, the dict built at
`job_search_AI.py` lines 218-231: the spread `**job_data` copies the eight
scraped fields, then the nested `summary` and `relevance` dicts are built
from the two model outputs. -/
structure EnrichedJob where
  title : String
  organisation_name : String
  organisation_url : Option String
  description : String
  criteria : String
  url : String
  posted_time : String
  applicants : String
  summary : JobSummary
  relevance : RelevanceResult
deriving DecidableEq

/-- Construction of one enriched entry from its source record and the two
validated model outputs (`job_search_AI.py` lines 218-231). -/
def mkEnriched (j : JobRecord) (s : JobSummary) (r : RelevanceResult) :
    EnrichedJob :=
  { title := j.title
    organisation_name := j.organisation_name
    organisation_url := j.organisation_url
    description := j.description
    criteria := j.criteria
    url := j.url
    posted_time := j.posted_time
    applicants := j.applicants
    summary := ⟨s.key_requirements, s.role_details⟩
    relevance := ⟨r.relevant, r.explanation, r.confidence⟩ }

/-- Outcome of the ENRICH loop: the in-memory `jobs_summary` list, the
contents of the result file `./offers/Jobs_relevant_.json` (`none` when the
loop never wrote it, so the file keeps whatever state it had before the
run), and the uncaught `ValidationError`, if any, that terminated the
process. -/
structure EnrichOutcome where
  jobs_summary : List EnrichedJob
  resultFile : Option (List EnrichedJob)
  error : Option ModelError
deriving DecidableEq

/-- The ENRICH loop, `job_search_AI.py` lines 204-234.  For each stored
job, in order: `get_summary` (oracle `summarize`), then `is_job_relevant`
on the job plus its summary (oracle `classify`), then append the enriched
entry and rewrite the whole result file.  Neither model call is wrapped in
a `try`: a `ValidationError` raised by either propagates out of the loop
and terminates the run, leaving the result file at its last written
state. -/
def enrichLoop (summarize : JobRecord → Except ModelError JobSummary)
    (classify : JobRecord → JobSummary → Except ModelError RelevanceResult) :
    List JobRecord → List EnrichedJob → Option (List EnrichedJob) →
    EnrichOutcome
  | [], acc, disk => ⟨acc, disk, none⟩
  | j :: rest, acc, disk =>
    match summarize j with
    | .error e => ⟨acc, disk, some e⟩
    | .ok s =>
      match classify j s with
      | .error e => ⟨acc, disk, some e⟩
      | .ok r =>
        let acc2 := acc ++ [mkEnriched j s r]
        enrichLoop summarize classify rest acc2 (some acc2)

/-- The `__main__` pipeline, `job_search_AI.py` lines 189-234.  `plan` is
the outcome of `generate_queries` (its `model_validate_json` raises a
`ValidationError` on malformed output, line 111, uncaught): when it fails,
nothing is scraped or enriched and both files keep their prior state.
Otherwise the scraper runs over all offsets, the scraped store is read
back (line 201; after `get_job_offers` the file was always just written as
well-formed JSON) and each job is enriched in stored order. -/
def mainPipeline (plan : Except ModelError QueryOutput)
    (listing : String → String → Nat → ListingResponse)
    (detail : String → Option DetailPage)
    (summarize : JobRecord → Except ModelError JobSummary)
    (classify : JobRecord → JobSummary → Except ModelError RelevanceResult)
    (jobsFile : StoredFile) (resultFile : Option (List EnrichedJob)) :
    StoredFile × Option (List EnrichedJob) × Option ModelError :=
  match plan with
  | .error e => (jobsFile, resultFile, some e)
  | .ok queries_data =>
    let jobsFile2 :=
      get_job_offers listing detail queries_data.queries queries_data.location
        jobsFile
    let out := enrichLoop summarize classify (loadJobs jobsFile2) [] resultFile
    (jobsFile2, out.resultFile, out.error)

/-- A concrete scraped record used in witnesses and counterexamples. -/
def baseRecord : JobRecord :=
  { title := "A"
    organisation_name := "Org"
    organisation_url := some "https://org.example"
    description := "desc"
    criteria := "crit"
    url := jobPostingUrl "1"
    posted_time := "1 day ago"
    applicants := "12 applicants" }

/-- A second concrete record, differing in title. -/
def jobB : JobRecord :=
  { baseRecord with title := "B" }

/-- A concrete summarizer output. -/
def summaryEx : JobSummary :=
  ⟨["requirement"], ["role detail"]⟩

/-- A concrete relevance verdict. -/
def verdictEx : RelevanceResult :=
  ⟨true, "matches the field", 1⟩

/-- A summarizer oracle whose structured output fails schema validation
exactly on the job titled "A". -/
def summarizeEx (j : JobRecord) : Except ModelError JobSummary :=
  if j.title = "A" then .error .validationError else .ok summaryEx

/-- A classifier oracle that always validates. -/
def classifyEx (_ : JobRecord) (_ : JobSummary) :
    Except ModelError RelevanceResult :=
  .ok verdictEx

/-- A summarizer oracle that always validates. -/
def summarizeOk (_ : JobRecord) : Except ModelError JobSummary :=
  .ok summaryEx

/-- A classifier oracle that always validates. -/
def classifyOk (_ : JobRecord) (_ : JobSummary) :
    Except ModelError RelevanceResult :=
  .ok verdictEx

/-- A detail page whose organisation link element is present but carries
no `href` attribute. -/
def hrefLessPage : DetailPage :=
  { titleTag := some "PhD position"
    descriptionTag := some "desc"
    criteriaTag := some "crit"
    organisationTag := some ⟨"Acme", none⟩
    postedTimeTag := some "1 day ago"
    figcaptionApplicantsTag := none
    spanApplicantsTag := none }

/-- A listing oracle answering every request with one base-card item and
one item without a base-card div. -/
def listingOneItem (_ _ : String) (_ : Nat) : ListingResponse :=
  ⟨200, [some "urn:li:jobPosting:1001", none]⟩

/-- A listing oracle answering every request with status 404. -/
def listing404 (_ _ : String) (_ : Nat) : ListingResponse :=
  ⟨404, [some "urn:li:jobPosting:1001"]⟩

/-- A detail oracle returning `hrefLessPage` for every URL. -/
def detailConst (_ : String) : Option DetailPage :=
  some hrefLessPage

/-! ## Helper lemmas -/

/-- `safe_text` equals the trimmed element text with `"Unknown"` as the
absent-element default. -/
theorem safe_text_eq (o : Option String) :
    safe_text o = (o.map pyStrip).getD "Unknown" := by
  cases o <;> rfl

/-- Running the ENRICH loop over a prefix on which both model calls
validate reaches the rest of the list with the enrichments of the prefix
appended to the accumulator and checkpointed to the result file (the file
is untouched when the prefix is empty). -/
theorem enrichLoop_ok_append
    (summarize : JobRecord → Except ModelError JobSummary)
    (classify : JobRecord → JobSummary → Except ModelError RelevanceResult)
    (sOf : JobRecord → JobSummary) (rOf : JobRecord → RelevanceResult)
    (xs ys : List JobRecord) (acc : List EnrichedJob)
    (disk : Option (List EnrichedJob))
    (h : ∀ p ∈ xs, summarize p = .ok (sOf p) ∧
      classify p (sOf p) = .ok (rOf p)) :
    enrichLoop summarize classify (xs ++ ys) acc disk =
      enrichLoop summarize classify ys
        (acc ++ xs.map fun p => mkEnriched p (sOf p) (rOf p))
        (cond xs.isEmpty disk
          (some (acc ++ xs.map fun p => mkEnriched p (sOf p) (rOf p)))) := by
  induction xs generalizing acc disk with
  | nil => simp
  | cons x xs ih =>
    obtain ⟨hs, hc⟩ := h x (List.mem_cons_self _ _)
    have hrest : ∀ p ∈ xs, summarize p = .ok (sOf p) ∧
        classify p (sOf p) = .ok (rOf p) :=
      fun p hp => h p (List.mem_cons_of_mem _ hp)
    simp only [List.cons_append, enrichLoop, hs, hc]
    rw [List.append_eq, ih _ _ hrest]
    cases xs with
    | nil => simp
    | cons y ys2 => simp

/-- Every entry of the in-memory result list after the ENRICH loop either
was already in the accumulator or is the enrichment of some input job on
which both model calls validated. -/
theorem enrichLoop_mem
    (summarize : JobRecord → Except ModelError JobSummary)
    (classify : JobRecord → JobSummary → Except ModelError RelevanceResult)
    (xs : List JobRecord) (acc : List EnrichedJob)
    (disk : Option (List EnrichedJob)) (e : EnrichedJob)
    (he : e ∈ (enrichLoop summarize classify xs acc disk).jobs_summary) :
    e ∈ acc ∨ ∃ j s r, j ∈ xs ∧ summarize j = .ok s ∧ classify j s = .ok r ∧
      e = mkEnriched j s r := by
  induction xs generalizing acc disk with
  | nil => exact Or.inl (by simpa [enrichLoop] using he)
  | cons x xs ih =>
    cases hs : summarize x with
    | error e1 => exact Or.inl (by simpa [enrichLoop, hs] using he)
    | ok s =>
      cases hc : classify x s with
      | error e2 => exact Or.inl (by simpa [enrichLoop, hs, hc] using he)
      | ok r =>
        have he2 : e ∈ (enrichLoop summarize classify xs
            (acc ++ [mkEnriched x s r])
            (some (acc ++ [mkEnriched x s r]))).jobs_summary := by
          simpa [enrichLoop, hs, hc] using he
        rcases ih _ _ he2 with hmem | ⟨j, s2, r2, hj, h1, h2, h3⟩
        · rcases List.mem_append.mp hmem with hin | hin
          · exact Or.inl hin
          · exact Or.inr ⟨x, s, r, List.mem_cons_self _ _, hs, hc,
              by simpa using hin⟩
        · exact Or.inr ⟨j, s2, r2, List.mem_cons_of_mem _ hj, h1, h2, h3⟩

/-! ## Claim theorems -/

/-- C6: loading the persisted scraped-jobs store returns the empty
collection both when the file is absent and when its contents fail to
parse as JSON, whatever the raw contents are; `loadJobs` is a total
function, so the run never fails here. -/
theorem load_absent_or_malformed_empty :
    loadJobs .absent = [] ∧ ∀ raw : String, loadJobs (.corrupt raw) = [] :=
  ⟨rfl, fun _ => rfl⟩

/-- C4: starting from a store that loads as empty (absent or malformed
file), appending a list of records and saving, then performing a fresh
load, yields exactly those records in the same order. -/
theorem store_append_save_load_roundtrip (records : List JobRecord)
    (f : StoredFile) (h : loadJobs f = []) :
    loadJobs (saveJobs (loadJobs f ++ records)) = records := by
  rw [h]
  rfl

theorem store_append_save_load_roundtrip_witness :
    loadJobs (saveJobs (loadJobs .absent ++ [baseRecord])) = [baseRecord] :=
  store_append_save_load_roundtrip [baseRecord] .absent rfl

/-- C5: a non-200 listing response for one query of a batch contributes
zero identifiers and zero records, and the scrape of the remaining
queries is exactly as if that query were not in the batch; the embedded
scraper is a total function, so no exception escapes. -/
theorem listing_non200_skips_query
    (listing : String → String → Nat → ListingResponse)
    (detail : String → Option DetailPage)
    (pre : List String) (q : String) (post : List String)
    (location : String) (start_index : Nat) (file : StoredFile)
    (h : (listing q location start_index).status ≠ 200) :
    scrape_linkedin_jobs listing detail (pre ++ q :: post) location
        start_index file =
      scrape_linkedin_jobs listing detail (pre ++ post) location
        start_index file := by
  have hq : scrapeQuery listing detail q location start_index = [] := by
    simp [scrapeQuery, h]
  simp [scrape_linkedin_jobs, List.foldl_append, hq]

theorem listing_non200_skips_query_witness :
    scrape_linkedin_jobs listing404 detailConst (["a"] ++ "b" :: [])
        "Worldwide" 0 .absent =
      scrape_linkedin_jobs listing404 detailConst (["a"] ++ [])
        "Worldwide" 0 .absent :=
  listing_non200_skips_query listing404 detailConst ["a"] "b" []
    "Worldwide" 0 .absent (by decide)

/-- C8: the SCRAPE stage iterates the full query list at exactly the
offsets 0, 25, 50, 75, 100 (the multiples of 25 strictly below
`MAX_SCRAPE = 125`), and the offset sequence is a fixed constant,
independent of the listing and detail responses. -/
theorem scrape_offsets_fixed :
    pyRange 0 MAX_SCRAPE 25 = [0, 25, 50, 75, 100] ∧
    ∀ (listing : String → String → Nat → ListingResponse)
      (detail : String → Option DetailPage)
      (queries : List String) (location : String) (file : StoredFile),
      get_job_offers listing detail queries location file =
        [0, 25, 50, 75, 100].foldl
          (fun fs i =>
            (scrape_linkedin_jobs listing detail queries location i fs).2)
          file := by
  have h : pyRange 0 MAX_SCRAPE 25 = [0, 25, 50, 75, 100] := by decide
  exact ⟨h, fun listing detail queries location file => by
    simp only [get_job_offers, h]⟩

/-- The constructed detail-endpoint URL is never the sentinel string. -/
theorem jobPostingUrl_ne_unknown (job_id : String) :
    jobPostingUrl job_id ≠ "Unknown" := by
  intro h
  have hlen := congrArg String.length h
  simp only [jobPostingUrl, String.length_append] at hlen
  rw [show ("https://www.linkedin.com/jobs-guest/jobs/api/jobPosting/" :
      String).length = 56 from by decide,
    show ("Unknown" : String).length = 7 from by decide] at hlen
  omega

/-- C10: every record the scraper produces for a query carries as `url`
the detail-endpoint URL built from the job identifier it was fetched
with, and that URL is never the `"Unknown"` sentinel. -/
theorem record_url_is_job_posting_url
    (listing : String → String → Nat → ListingResponse)
    (detail : String → Option DetailPage)
    (query location : String) (start_index : Nat) (r : JobRecord)
    (hr : r ∈ scrapeQuery listing detail query location start_index) :
    ∃ job_id, r.url = jobPostingUrl job_id ∧ r.url ≠ "Unknown" := by
  simp only [scrapeQuery] at hr
  split at hr
  · simp at hr
  · rw [List.mem_filterMap] at hr
    obtain ⟨job_id, _, hopt⟩ := hr
    obtain ⟨page, _, hbuild⟩ := Option.map_eq_some'.mp hopt
    subst hbuild
    exact ⟨job_id, rfl, jobPostingUrl_ne_unknown job_id⟩

theorem record_url_is_job_posting_url_witness :
    ∃ job_id,
      (buildJobRecord hrefLessPage (jobPostingUrl "1001")).url =
        jobPostingUrl job_id ∧
      (buildJobRecord hrefLessPage (jobPostingUrl "1001")).url ≠ "Unknown" :=
  record_url_is_job_posting_url listingOneItem detailConst "q" "Worldwide" 0
    (buildJobRecord hrefLessPage (jobPostingUrl "1001"))
    (by
      have h : scrapeQuery listingOneItem detailConst "q" "Worldwide" 0 =
          [buildJobRecord hrefLessPage (jobPostingUrl "1001")] := rfl
      rw [h]
      exact List.mem_singleton_self _)

/-- C2 counterexample: on a page whose organisation link element is
present but has no `href` attribute, the returned record's
`organisation_url` is null (Python `None`, from `tag.get("href")`) —
neither the element's text nor the `"Unknown"` sentinel — refuting
"no field of a returned record is ever null". -/
theorem org_href_missing_null_cex :
    hrefLessPage.organisationTag = some ⟨"Acme", none⟩ ∧
    (buildJobRecord hrefLessPage (jobPostingUrl "42")).organisation_url =
      none :=
  ⟨rfl, rfl⟩

/-- C2 (amended): the six plain text fields equal the trimmed element
text when the element is present and `"Unknown"` when absent
(`applicants` trying the figcaption shape before the span shape);
`organisation_url` equals the element's `href` attribute when the element
is present — which is null exactly when the attribute is missing — and
`"Unknown"` when the element is absent; `url` always equals the URL the
record was fetched from, never a default. -/
theorem buildJobRecord_field_defaults (page : DetailPage) (u : String) :
    (buildJobRecord page u).title =
      (page.titleTag.map pyStrip).getD "Unknown" ∧
    (buildJobRecord page u).description =
      (page.descriptionTag.map pyStrip).getD "Unknown" ∧
    (buildJobRecord page u).criteria =
      (page.criteriaTag.map pyStrip).getD "Unknown" ∧
    (buildJobRecord page u).organisation_name =
      ((page.organisationTag.map OrgTag.text).map pyStrip).getD
        "Unknown" ∧
    (buildJobRecord page u).posted_time =
      (page.postedTimeTag.map pyStrip).getD "Unknown" ∧
    (buildJobRecord page u).applicants =
      ((page.figcaptionApplicantsTag.orElse fun _ =>
          page.spanApplicantsTag).map pyStrip).getD "Unknown" ∧
    (page.organisationTag = none →
      (buildJobRecord page u).organisation_url = some "Unknown") ∧
    (∀ tag, page.organisationTag = some tag →
      (buildJobRecord page u).organisation_url = tag.href) ∧
    ((buildJobRecord page u).organisation_url = none ↔
      ∃ tag, page.organisationTag = some tag ∧ tag.href = none) ∧
    (buildJobRecord page u).url = u := by
  refine ⟨safe_text_eq _, safe_text_eq _, safe_text_eq _, safe_text_eq _,
    safe_text_eq _, safe_text_eq _, ?_, ?_, ?_, rfl⟩
  · intro h
    simp [buildJobRecord, h]
  · intro tag h
    simp [buildJobRecord, h]
  · cases h : page.organisationTag with
    | none => simp [buildJobRecord, h]
    | some tag => simp [buildJobRecord, h]

theorem buildJobRecord_field_defaults_witness :
    (buildJobRecord hrefLessPage (jobPostingUrl "7")).organisation_url =
      (OrgTag.mk "Acme" none).href :=
  (buildJobRecord_field_defaults hrefLessPage
      (jobPostingUrl "7")).2.2.2.2.2.2.2.1 ⟨"Acme", none⟩ rfl

/-- C7 counterexample: a model output whose `confidence` is 2 passes
schema validation unchanged — the pydantic model constrains only the
field types (`relevant: bool`, `explanation: str`, `confidence: float`),
not the range — so an accepted RelevanceVerdict can have confidence
outside `[0, 1]`.  The `[0, 1]` range appears only in the prompt text. -/
theorem relevance_confidence_unbounded_cex :
    RelevanceResult.model_validate_json
        (.obj [("relevant", .bool true), ("explanation", .str "e"),
          ("confidence", .num 2)]) =
      .ok ⟨true, "e", 2⟩ ∧
    ¬ ((0 : ℚ) ≤ 2 ∧ (2 : ℚ) ≤ 1) := by
  refine ⟨rfl, fun h => ?_⟩
  exact absurd h.2 (by norm_num)

/-- C7 (amended): schema validation accepts exactly the JSON objects
whose `relevant`, `explanation` and `confidence` fields are present and
lax-coercible to their declared types — pydantic's default lax rules,
e.g. 1 or "true" for a bool field, booleans or numeric strings for a
float field — and raises ModelError on everything else; a numeric
`confidence` passes through unchanged with no range constraint, so an
accepted verdict can carry confidence outside `[0, 1]`. -/
theorem relevance_validation_characterization :
    (∀ (j : Json) (r : RelevanceResult),
      RelevanceResult.model_validate_json j = .ok r ↔
        relevanceConforms j r) ∧
    (∀ q : ℚ, laxFloat (.num q) = some q) ∧
    laxBool (.str "true") = some true ∧
    laxBool (.num 1) = some true ∧
    laxFloat (.bool true) = some 1 ∧
    laxFloat (.str "2.5") = some (5 / 2) := by
  refine ⟨?_, fun q => rfl, by decide, ?_, rfl, ?_⟩
  · intro j r
    constructor
    · intro h
      cases j with
      | obj fields =>
        refine ⟨fields, rfl, ?_⟩
        simp only [RelevanceResult.model_validate_json] at h
        split at h
        · injection h with h4
          subst h4
          simp_all
        · exact Except.noConfusion h
      | null => exact Except.noConfusion h
      | bool b => exact Except.noConfusion h
      | num q => exact Except.noConfusion h
      | str s => exact Except.noConfusion h
      | arr elems => exact Except.noConfusion h
    · rintro ⟨fields, rfl, h1, h2, h3⟩
      simp only [RelevanceResult.model_validate_json]
      rw [h1, h2, h3]
  · norm_num [laxBool]
  · have h1 : laxFloat (.str "2.5") = some (ratOfParts 1 25 (0 - 1)) := rfl
    rw [h1]
    norm_num [ratOfParts]

/-- C1 counterexample: two stored jobs, the summarizer's output failing
schema validation on the first, validating on the second, the classifier
always validating.  The claim predicts only job 1 is excluded and job 2
is still enriched into the result store; in fact the uncaught
ValidationError terminates the loop: nothing is written, job 2 is never
processed, and the run aborts with the error. -/
theorem enrich_error_does_not_continue_cex :
    enrichLoop summarizeEx classifyEx [baseRecord, jobB] [] none =
      ⟨[], none, some .validationError⟩ :=
  rfl

/-- C1 (amended): a schema-validation failure aborts the whole run at
every stage.  A failing query plan leaves the pipeline untouched (nothing
scraped, nothing enriched, both files keep their prior state); a failure
while summarizing or classifying job k + 1 of the ENRICH stage stops the
loop with the error, jobs beyond k are never processed, and the result
store keeps exactly the first k enriched entries (its pre-run state when
k = 0). -/
theorem enrich_error_aborts_run :
    (∀ (listing : String → String → Nat → ListingResponse)
      (detail : String → Option DetailPage)
      (summarize : JobRecord → Except ModelError JobSummary)
      (classify : JobRecord → JobSummary → Except ModelError RelevanceResult)
      (jobsFile : StoredFile) (resultFile : Option (List EnrichedJob))
      (e : ModelError),
      mainPipeline (.error e) listing detail summarize classify jobsFile
          resultFile =
        (jobsFile, resultFile, some e)) ∧
    (∀ (summarize : JobRecord → Except ModelError JobSummary)
      (classify : JobRecord → JobSummary → Except ModelError RelevanceResult)
      (sOf : JobRecord → JobSummary) (rOf : JobRecord → RelevanceResult)
      (pre : List JobRecord) (j : JobRecord) (post : List JobRecord)
      (disk : Option (List EnrichedJob)) (err : ModelError),
      (∀ p ∈ pre, summarize p = .ok (sOf p) ∧
        classify p (sOf p) = .ok (rOf p)) →
      (summarize j = .error err ∨
        ∃ s, summarize j = .ok s ∧ classify j s = .error err) →
      enrichLoop summarize classify (pre ++ j :: post) [] disk =
        ⟨pre.map fun p => mkEnriched p (sOf p) (rOf p),
          cond pre.isEmpty disk
            (some (pre.map fun p => mkEnriched p (sOf p) (rOf p))),
          some err⟩) := by
  constructor
  · intro listing detail summarize classify jobsFile resultFile e
    rfl
  · intro summarize classify sOf rOf pre j post disk err hpre herr
    rw [enrichLoop_ok_append summarize classify sOf rOf pre (j :: post) []
      disk hpre]
    rcases herr with hs | ⟨s, hs, hc⟩
    · simp [enrichLoop, hs]
    · simp [enrichLoop, hs, hc]

theorem enrich_error_aborts_run_witness :
    mainPipeline (.error .validationError) listingOneItem detailConst
        summarizeOk classifyOk .absent none =
      (.absent, none, some .validationError) ∧
    enrichLoop summarizeEx classifyEx ([jobB] ++ baseRecord :: []) [] none =
      ⟨[jobB].map fun p => mkEnriched p summaryEx verdictEx,
        cond [jobB].isEmpty none
          (some ([jobB].map fun p => mkEnriched p summaryEx verdictEx)),
        some .validationError⟩ :=
  ⟨enrich_error_aborts_run.1 listingOneItem detailConst summarizeOk
      classifyOk .absent none .validationError,
    enrich_error_aborts_run.2 summarizeEx classifyEx (fun _ => summaryEx)
      (fun _ => verdictEx) [jobB] baseRecord [] none .validationError
      (fun p hp => by rw [List.mem_singleton.mp hp]; exact ⟨rfl, rfl⟩)
      (Or.inl rfl)⟩

/-- C3: if the two model calls validate on each of the first k stored
jobs (1 ≤ k ≤ n), then running the ENRICH loop over those k jobs leaves
the result store holding exactly the k enriched entries of the first k
jobs, in stored order, and the full run factors through that state — so
an interruption before job k + 1 loses at most the in-flight job's
work. -/
theorem enrich_checkpoint_after_k
    (summarize : JobRecord → Except ModelError JobSummary)
    (classify : JobRecord → JobSummary → Except ModelError RelevanceResult)
    (sOf : JobRecord → JobSummary) (rOf : JobRecord → RelevanceResult)
    (jobs : List JobRecord) (k : Nat) (disk : Option (List EnrichedJob))
    (hk1 : 1 ≤ k) (hk2 : k ≤ jobs.length)
    (hok : ∀ p ∈ jobs.take k, summarize p = .ok (sOf p) ∧
      classify p (sOf p) = .ok (rOf p)) :
    enrichLoop summarize classify (jobs.take k) [] disk =
      ⟨(jobs.take k).map fun p => mkEnriched p (sOf p) (rOf p),
        some ((jobs.take k).map fun p => mkEnriched p (sOf p) (rOf p)),
        none⟩ ∧
    ((jobs.take k).map fun p => mkEnriched p (sOf p) (rOf p)).length = k ∧
    enrichLoop summarize classify jobs [] disk =
      enrichLoop summarize classify (jobs.drop k)
        ((jobs.take k).map fun p => mkEnriched p (sOf p) (rOf p))
        (some ((jobs.take k).map fun p => mkEnriched p (sOf p) (rOf p))) := by
  have hlen : (jobs.take k).length = k := by
    rw [List.length_take]
    omega
  have hne : (jobs.take k).isEmpty = false := by
    cases htk : jobs.take k with
    | nil => rw [htk] at hlen; simp at hlen; omega
    | cons a as => rfl
  refine ⟨?_, ?_, ?_⟩
  · have h := enrichLoop_ok_append summarize classify sOf rOf (jobs.take k)
      [] [] disk hok
    rw [List.append_nil, hne] at h
    simpa [enrichLoop] using h
  · rw [List.length_map, hlen]
  · have h := enrichLoop_ok_append summarize classify sOf rOf (jobs.take k)
      (jobs.drop k) [] disk hok
    rw [List.take_append_drop, hne] at h
    simpa using h

theorem enrich_checkpoint_after_k_witness :
    enrichLoop summarizeOk classifyOk ([jobB, baseRecord].take 1) [] none =
      ⟨([jobB, baseRecord].take 1).map fun p =>
          mkEnriched p summaryEx verdictEx,
        some (([jobB, baseRecord].take 1).map fun p =>
          mkEnriched p summaryEx verdictEx),
        none⟩ :=
  (enrich_checkpoint_after_k summarizeOk classifyOk (fun _ => summaryEx)
    (fun _ => verdictEx) [jobB, baseRecord] 1 none (by omega) (by decide)
    (fun p _ => ⟨rfl, rfl⟩)).1

/-- C9: every entry written by the ENRICH loop is the enrichment of one
of the input jobs on which both model calls validated: all eight scraped
fields are carried over unchanged and the `summary` and `relevance`
fields hold exactly the validated model outputs. -/
theorem enriched_preserves_record_fields
    (summarize : JobRecord → Except ModelError JobSummary)
    (classify : JobRecord → JobSummary → Except ModelError RelevanceResult)
    (jobs : List JobRecord) (disk : Option (List EnrichedJob))
    (e : EnrichedJob)
    (he : e ∈ (enrichLoop summarize classify jobs [] disk).jobs_summary) :
    ∃ j s r, j ∈ jobs ∧ summarize j = .ok s ∧ classify j s = .ok r ∧
      e = mkEnriched j s r ∧
      e.title = j.title ∧ e.organisation_name = j.organisation_name ∧
      e.organisation_url = j.organisation_url ∧
      e.description = j.description ∧ e.criteria = j.criteria ∧
      e.url = j.url ∧ e.posted_time = j.posted_time ∧
      e.applicants = j.applicants ∧
      e.summary.key_requirements = s.key_requirements ∧
      e.summary.role_details = s.role_details ∧
      e.relevance.relevant = r.relevant ∧
      e.relevance.confidence = r.confidence ∧
      e.relevance.explanation = r.explanation := by
  rcases enrichLoop_mem summarize classify jobs [] disk e he with
    h | ⟨j, s, r, hj, h1, h2, h3⟩
  · simp at h
  · subst h3
    exact ⟨j, s, r, hj, h1, h2, rfl, rfl, rfl, rfl, rfl, rfl, rfl, rfl,
      rfl, rfl, rfl, rfl, rfl, rfl⟩

theorem enriched_preserves_record_fields_witness :
    ∃ j s r, j ∈ [jobB] ∧ summarizeOk j = .ok s ∧ classifyOk j s = .ok r ∧
      mkEnriched jobB summaryEx verdictEx = mkEnriched j s r ∧
      (mkEnriched jobB summaryEx verdictEx).title = j.title ∧
      (mkEnriched jobB summaryEx verdictEx).organisation_name =
        j.organisation_name ∧
      (mkEnriched jobB summaryEx verdictEx).organisation_url =
        j.organisation_url ∧
      (mkEnriched jobB summaryEx verdictEx).description = j.description ∧
      (mkEnriched jobB summaryEx verdictEx).criteria = j.criteria ∧
      (mkEnriched jobB summaryEx verdictEx).url = j.url ∧
      (mkEnriched jobB summaryEx verdictEx).posted_time = j.posted_time ∧
      (mkEnriched jobB summaryEx verdictEx).applicants = j.applicants ∧
      (mkEnriched jobB summaryEx verdictEx).summary.key_requirements =
        s.key_requirements ∧
      (mkEnriched jobB summaryEx verdictEx).summary.role_details =
        s.role_details ∧
      (mkEnriched jobB summaryEx verdictEx).relevance.relevant =
        r.relevant ∧
      (mkEnriched jobB summaryEx verdictEx).relevance.confidence =
        r.confidence ∧
      (mkEnriched jobB summaryEx verdictEx).relevance.explanation =
        r.explanation :=
  enriched_preserves_record_fields summarizeOk classifyOk [jobB] none
    (mkEnriched jobB summaryEx verdictEx)
    (by simp [enrichLoop, summarizeOk, classifyOk])

end JobSearch
